import Mathlib

/-!
Shallow embedding of the 2DWorld geodesic physics engine
(js/engine/physics.js together with the vector helpers of js/engine/math.js).

JavaScript numbers are modelled as real numbers. The module-level mass
collection (set through setMasses and read by every physics routine) is
modelled as an explicit read-only parameter of each function.
-/

namespace TwoDWorld

noncomputable section

open scoped Classical

/-- A 2D vector, as the plain x/y records used throughout math.js. -/
@[ext]
structure Vec2 where
  x : ℝ
  y : ℝ

/-- A point mass: position and strength, as configured via setMasses. -/
structure Mass where
  x : ℝ
  y : ℝ
  strength : ℝ

/-- A recorded trajectory sample, the x/y/z records pushed by computeTrajectory. -/
@[ext]
structure Point3 where
  x : ℝ
  y : ℝ
  z : ℝ

/-- length2D from math.js: sqrt(v.x*v.x + v.y*v.y). -/
def length2D (v : Vec2) : ℝ :=
  Real.sqrt (v.x * v.x + v.y * v.y)

/-- add2D from math.js. -/
def add2D (a b : Vec2) : Vec2 :=
  ⟨a.x + b.x, a.y + b.y⟩

/-- scale2D from math.js. -/
def scale2D (v : Vec2) (s : ℝ) : Vec2 :=
  ⟨v.x * s, v.y * s⟩

/-- The distance from the query point (x, y) to a mass, as computed inline in
gravitationalHeight: sqrt(dx*dx + dy*dy) with dx = x - mass.x, dy = y - mass.y. -/
def massDist (x y : ℝ) (m : Mass) : ℝ :=
  Real.sqrt ((x - m.x) * (x - m.x) + (y - m.y) * (y - m.y))

/-- gravitationalHeight from physics.js: starts at 0 and subtracts
strength / (dist + 0.5) for each configured mass in order. -/
def gravitationalHeight (ms : List Mass) (x y : ℝ) : ℝ :=
  ms.foldl (fun h m => h - m.strength / (massDist x y m + 0.5)) 0

/-- The result record of computeGradient. -/
structure Gradient where
  dzdx : ℝ
  dzdy : ℝ

/-- computeGradient from physics.js: one-sided forward differences of the
height field with step eps (callers use the default eps = 0.01). -/
def computeGradient (ms : List Mass) (x y eps : ℝ) : Gradient :=
  let z0 := gravitationalHeight ms x y
  let zx := gravitationalHeight ms (x + eps) y
  let zy := gravitationalHeight ms x (y + eps)
  ⟨(zx - z0) / eps, (zy - z0) / eps⟩

/-- The symmetric 2x2 metric record produced by computeMetric. -/
structure Metric where
  g11 : ℝ
  g12 : ℝ
  g21 : ℝ
  g22 : ℝ

/-- computeMetric from physics.js: the metric induced on the graph surface
z = height(x, y), built from the gradient at the default step 0.01. -/
def computeMetric (ms : List Mass) (x y : ℝ) : Metric :=
  let gr := computeGradient ms x y 0.01
  ⟨1 + gr.dzdx * gr.dzdx, gr.dzdx * gr.dzdy, gr.dzdx * gr.dzdy, 1 + gr.dzdy * gr.dzdy⟩

/-- The six Christoffel symbols returned by computeChristoffel. -/
structure Christoffel where
  G111 : ℝ
  G112 : ℝ
  G122 : ℝ
  G211 : ℝ
  G212 : ℝ
  G222 : ℝ

/-- computeChristoffel from physics.js: metric at the 5-point stencil,
centered differences with step 2*eps, closed-form 2x2 inverse, and the six
contracted symbols exactly as written in the source. -/
def computeChristoffel (ms : List Mass) (x y eps : ℝ) : Christoffel :=
  let g := computeMetric ms x y
  let gxp := computeMetric ms (x + eps) y
  let gxm := computeMetric ms (x - eps) y
  let gyp := computeMetric ms x (y + eps)
  let gym := computeMetric ms x (y - eps)
  let dg11dx := (gxp.g11 - gxm.g11) / (2 * eps)
  let dg11dy := (gyp.g11 - gym.g11) / (2 * eps)
  let dg12dx := (gxp.g12 - gxm.g12) / (2 * eps)
  let dg12dy := (gyp.g12 - gym.g12) / (2 * eps)
  let dg22dx := (gxp.g22 - gxm.g22) / (2 * eps)
  let dg22dy := (gyp.g22 - gym.g22) / (2 * eps)
  let det := g.g11 * g.g22 - g.g12 * g.g21
  let gi11 := g.g22 / det
  let gi12 := -g.g12 / det
  let gi21 := -g.g21 / det
  let gi22 := g.g11 / det
  ⟨0.5 * (gi11 * dg11dx + gi12 * (2 * dg12dx - dg11dy)),
   0.5 * (gi11 * dg11dy + gi12 * dg22dx),
   0.5 * (gi11 * (2 * dg12dy - dg22dx) + gi12 * dg22dy),
   0.5 * (gi21 * dg11dx + gi22 * (2 * dg12dx - dg11dy)),
   0.5 * (gi21 * dg11dy + gi22 * dg22dx),
   0.5 * (gi21 * (2 * dg12dy - dg22dx) + gi22 * dg22dy)⟩

/-- Metric component g_{ij} by index (indices 0 and 1 for the two coordinates). -/
def metricEntry (m : Metric) : Fin 2 → Fin 2 → ℝ
  | 0, 0 => m.g11
  | 0, 1 => m.g12
  | 1, 0 => m.g21
  | 1, 1 => m.g22

/-- Inverse-metric component g^{il} from the closed-form 2x2 inverse with
det = g11*g22 - g12*g21, as the spec describes it. -/
def metricInvEntry (m : Metric) : Fin 2 → Fin 2 → ℝ :=
  fun i l =>
    let det := m.g11 * m.g22 - m.g12 * m.g21
    match i, l with
    | 0, 0 => m.g22 / det
    | 0, 1 => -m.g12 / det
    | 1, 0 => -m.g21 / det
    | 1, 1 => m.g11 / det

/-- Centered finite difference of the metric component g_{lj} in coordinate
direction k, with step 2*eps over the same 5-point stencil the source uses. -/
def metricDeriv (ms : List Mass) (x y eps : ℝ) (l j k : Fin 2) : ℝ :=
  match k with
  | 0 => (metricEntry (computeMetric ms (x + eps) y) l j -
          metricEntry (computeMetric ms (x - eps) y) l j) / (2 * eps)
  | 1 => (metricEntry (computeMetric ms x (y + eps)) l j -
          metricEntry (computeMetric ms x (y - eps)) l j) / (2 * eps)

/-- Modelled from the spec wording of section 4.2: the full two-dimensional
Christoffel contraction, one half times g^{il} times
(d_k g_{lj} + d_j g_{lk} - d_l g_{jk}), summed over both values of l. -/
def christoffelSpec (ms : List Mass) (x y eps : ℝ) (i j k : Fin 2) : ℝ :=
  (1 / 2) * ∑ l : Fin 2, metricInvEntry (computeMetric ms x y) i l *
    (metricDeriv ms x y eps l j k + metricDeriv ms x y eps l k j -
      metricDeriv ms x y eps j k l)

/-- geodesicAcceleration from physics.js: Christoffel symbols at the position
(default step 0.02), clamped to zero when the speed is below 0.001, otherwise
minus the quadratic contraction of the symbols with the velocity. -/
def geodesicAcceleration (ms : List Mass) (pos vel : Vec2) : Vec2 :=
  let G := computeChristoffel ms pos.x pos.y 0.02
  let vx := vel.x
  let vy := vel.y
  let speed := Real.sqrt (vx * vx + vy * vy)
  if speed < 0.001 then ⟨0, 0⟩
  else
    ⟨-(G.G111 * vx * vx + 2 * G.G112 * vx * vy + G.G122 * vy * vy),
     -(G.G211 * vx * vx + 2 * G.G212 * vx * vy + G.G222 * vy * vy)⟩

/-- computeEffectiveGravity from physics.js: minus the gradient (default step
0.01) times the gravity strength 2.0. -/
def computeEffectiveGravity (ms : List Mass) (pos : Vec2) : Vec2 :=
  let gr := computeGradient ms pos.x pos.y 0.01
  ⟨-gr.dzdx * 2.0, -gr.dzdy * 2.0⟩

/-- totalAcceleration from physics.js: geodesic deviation plus effective
gravity. -/
def totalAcceleration (ms : List Mass) (pos vel : Vec2) : Vec2 :=
  let geodesic := geodesicAcceleration ms pos vel
  let gravity := computeEffectiveGravity ms pos
  ⟨geodesic.x + gravity.x, geodesic.y + gravity.y⟩

/-- integrateRK4 from physics.js: one classical fourth-order Runge-Kutta step
of the coupled position/velocity system with fixed step dt. -/
def integrateRK4 (ms : List Mass) (pos vel : Vec2) (dt : ℝ) : Vec2 × Vec2 :=
  let a1 := totalAcceleration ms pos vel
  let k1v := scale2D a1 dt
  let k1p := scale2D vel dt
  let pos2 := add2D pos (scale2D k1p 0.5)
  let vel2 := add2D vel (scale2D k1v 0.5)
  let a2 := totalAcceleration ms pos2 vel2
  let k2v := scale2D a2 dt
  let k2p := scale2D vel2 dt
  let pos3 := add2D pos (scale2D k2p 0.5)
  let vel3 := add2D vel (scale2D k2v 0.5)
  let a3 := totalAcceleration ms pos3 vel3
  let k3v := scale2D a3 dt
  let k3p := scale2D vel3 dt
  let pos4 := add2D pos k3p
  let vel4 := add2D vel k3v
  let a4 := totalAcceleration ms pos4 vel4
  let k4v := scale2D a4 dt
  let k4p := scale2D vel4 dt
  (⟨pos.x + (k1p.x + 2 * k2p.x + 2 * k3p.x + k4p.x) / 6,
    pos.y + (k1p.y + 2 * k2p.y + 2 * k3p.y + k4p.y) / 6⟩,
   ⟨vel.x + (k1v.x + 2 * k2v.x + 2 * k3v.x + k4v.x) / 6,
    vel.y + (k1v.y + 2 * k2v.y + 2 * k3v.y + k4v.y) / 6⟩)

/-- Modelled from the spec wording of section 4.3: the geodesic acceleration
is zero when the speed is below 1e-3, and otherwise minus the contraction of
the Christoffel symbols at the position with the velocity, twice. -/
def geodesicAccelerationSpec (ms : List Mass) (pos vel : Vec2) : Vec2 :=
  if length2D vel < 1e-3 then ⟨0, 0⟩
  else
    let G := computeChristoffel ms pos.x pos.y 0.02
    ⟨-(G.G111 * vel.x * vel.x + 2 * G.G112 * vel.x * vel.y + G.G122 * vel.y * vel.y),
     -(G.G211 * vel.x * vel.x + 2 * G.G212 * vel.x * vel.y + G.G222 * vel.y * vel.y)⟩

/-- Modelled from the spec wording of section 4.3: the effective-gravity term
is minus the gradient at the position scaled by 2.0. -/
def effectiveGravitySpec (ms : List Mass) (pos : Vec2) : Vec2 :=
  let gr := computeGradient ms pos.x pos.y 0.01
  scale2D ⟨gr.dzdx, gr.dzdy⟩ (-2.0)

/-- The bounds record of computeTrajectory's options. -/
structure Bounds where
  minX : ℝ
  maxX : ℝ
  minY : ℝ
  maxY : ℝ

/-- The options record of computeTrajectory, with goalPos optional; the source
defaults are maxSteps 15000, dt 0.01, bounds from -5 to 5 in both axes,
goalPos null, goalRadius 0.3. -/
structure TrajOptions where
  maxSteps : ℕ
  dt : ℝ
  bounds : Bounds
  goalPos : Option Vec2
  goalRadius : ℝ

/-- The result record of computeTrajectory. -/
structure TrajResult where
  points : List Point3
  reachedGoal : Bool
  outOfBounds : Bool
  finalPos : Vec2

/-- The goal test of computeTrajectory: a goal is configured and the distance
from the position to it is below goalRadius. -/
def goalHit (o : TrajOptions) (pos : Vec2) : Prop :=
  match o.goalPos with
  | none => False
  | some g => length2D ⟨pos.x - g.x, pos.y - g.y⟩ < o.goalRadius

/-- The bounds test of computeTrajectory: the position lies outside bounds. -/
def outsideBounds (b : Bounds) (pos : Vec2) : Prop :=
  pos.x < b.minX ∨ pos.x > b.maxX ∨ pos.y < b.minY ∨ pos.y > b.maxY

/-- The singularity test of computeTrajectory: the position is within 0.3 of
some configured mass. -/
def nearMass (ms : List Mass) (pos : Vec2) : Prop :=
  ∃ m ∈ ms, length2D ⟨pos.x - m.x, pos.y - m.y⟩ < 0.3

/-- The loop of computeTrajectory, with the remaining iteration budget as
fuel: record the current point, stop with reachedGoal on the goal test, stop
with outOfBounds on the bounds test, otherwise take one RK4 step and stop
with no flag set when the new position is too close to a mass. -/
def trajLoop (ms : List Mass) (o : TrajOptions) : ℕ → Vec2 → Vec2 → TrajResult
  | 0, pos, _ => ⟨[], false, false, pos⟩
  | fuel + 1, pos, vel =>
    let pt : Point3 := ⟨pos.x, pos.y, gravitationalHeight ms pos.x pos.y⟩
    if goalHit o pos then ⟨[pt], true, false, pos⟩
    else if outsideBounds o.bounds pos then ⟨[pt], false, true, pos⟩
    else
      let st := integrateRK4 ms pos vel o.dt
      if nearMass ms st.1 then ⟨[pt], false, false, st.1⟩
      else
        let rest := trajLoop ms o fuel st.1 st.2
        ⟨pt :: rest.points, rest.reachedGoal, rest.outOfBounds, rest.finalPos⟩

/-- computeTrajectory from physics.js, with the mass configuration and all
options explicit. -/
def computeTrajectory (ms : List Mass) (startPos startVel : Vec2)
    (o : TrajOptions) : TrajResult :=
  trajLoop ms o o.maxSteps startPos startVel

/-- Modelled from the spec: the outcome taxonomy of sections 4.4 and 7
(Success, OutOfBounds, Captured, Exhausted), which the source signals only
through where its loop breaks. -/
inductive Outcome where
  | success : Outcome
  | outOfBounds : Outcome
  | captured : Outcome
  | exhausted : Outcome
deriving DecidableEq

/-- Which break (if any) ends the source loop, retracing exactly the tests of
trajLoop in the same order. -/
def outcomeLoop (ms : List Mass) (o : TrajOptions) : ℕ → Vec2 → Vec2 → Outcome
  | 0, _, _ => .exhausted
  | fuel + 1, pos, vel =>
    if goalHit o pos then .success
    else if outsideBounds o.bounds pos then .outOfBounds
    else
      let st := integrateRK4 ms pos vel o.dt
      if nearMass ms st.1 then .captured
      else outcomeLoop ms o fuel st.1 st.2

/-- The outcome classification of a whole computeTrajectory run. -/
def runOutcome (ms : List Mass) (startPos startVel : Vec2)
    (o : TrajOptions) : Outcome :=
  outcomeLoop ms o o.maxSteps startPos startVel

/-- The default bounds box of the source: -5 to 5 in both axes. -/
def defaultBounds : Bounds := ⟨-5, 5, -5, 5⟩

/-- Concrete options: one step, no goal. -/
def optsOne : TrajOptions := ⟨1, 0.01, defaultBounds, none, 0.3⟩

/-- Concrete options: five steps, no goal. -/
def optsFive : TrajOptions := ⟨5, 0.01, defaultBounds, none, 0.3⟩

/-- Concrete options: one step, goal at (10, 0) which lies outside the default
bounds. -/
def optsGoalFar : TrajOptions := ⟨1, 0.01, defaultBounds, some ⟨10, 0⟩, 0.3⟩

/-- Concrete options: one step, goal at the origin. -/
def optsGoalZero : TrajOptions := ⟨1, 0.01, defaultBounds, some ⟨0, 0⟩, 0.3⟩

/-- A single mass of strength zero at the origin: its height field vanishes
identically while the mass still triggers the proximity capture test. -/
def msZero : List Mass := [⟨0, 0, 0⟩]

/-- Folding subtraction over a list starting from a equals a minus the sum of
the mapped contributions. -/
lemma foldl_sub_eq_sub_sum (f : Mass → ℝ) :
    ∀ (l : List Mass) (a : ℝ),
      l.foldl (fun h m => h - f m) a = a - (l.map f).sum := by
  intro l
  induction l with
  | nil => intro a; simp
  | cons m t ih =>
      intro a
      simp only [List.foldl_cons, List.map_cons, List.sum_cons, ih]
      ring

/-- The height field is minus the sum of the per-mass contributions. -/
lemma gravitationalHeight_eq_neg_sum (ms : List Mass) (x y : ℝ) :
    gravitationalHeight ms x y =
      -((ms.map fun m => m.strength / (massDist x y m + 0.5)).sum) := by
  simp [gravitationalHeight, foldl_sub_eq_sub_sum]

/-- Mapping negation through a list sum. -/
lemma sum_map_neg (f : Mass → ℝ) :
    ∀ l : List Mass, (l.map fun m => -f m).sum = -((l.map f).sum) := by
  intro l
  induction l with
  | nil => simp
  | cons m t ih => simp [ih]; ring

/-- The distance from a mass center to itself is zero. -/
lemma massDist_self (m : Mass) : massDist m.x m.y m = 0 := by
  simp [massDist]

/-- Distances to masses are nonnegative. -/
lemma massDist_nonneg (x y : ℝ) (m : Mass) : 0 ≤ massDist x y m :=
  Real.sqrt_nonneg _

/-- C1: for every query point (x, y) and step eps, computeChristoffel returns
exactly the six symbols of the full two-dimensional Christoffel contraction,
one half times the inverse metric times the centered metric derivatives,
summed over both values of the contracted index, with the inverse metric
taken in closed form with det = g11*g22 - g12*g21. -/
theorem christoffel_full_contraction (ms : List Mass) (x y eps : ℝ) :
    computeChristoffel ms x y eps =
      ⟨christoffelSpec ms x y eps 0 0 0, christoffelSpec ms x y eps 0 0 1,
       christoffelSpec ms x y eps 0 1 1, christoffelSpec ms x y eps 1 0 0,
       christoffelSpec ms x y eps 1 0 1, christoffelSpec ms x y eps 1 1 1⟩ := by
  have hsym : ∀ a b : ℝ, (computeMetric ms a b).g21 = (computeMetric ms a b).g12 :=
    fun a b => rfl
  simp only [computeChristoffel, christoffelSpec, Fin.sum_univ_two, metricDeriv,
    metricInvEntry, metricEntry, Christoffel.mk.injEq, hsym]
  refine ⟨?_, ?_, ?_, ?_, ?_, ?_⟩ <;> ring

/-- C2: the geodesic contribution is clamped to zero below speed 1e-3 and is
otherwise minus the Christoffel contraction with the velocity, and the total
acceleration used by the integrator is that geodesic term plus minus 2.0
times the gradient of the height field at the position. -/
theorem total_acceleration_decomposition (ms : List Mass) (pos vel : Vec2) :
    geodesicAcceleration ms pos vel = geodesicAccelerationSpec ms pos vel ∧
    computeEffectiveGravity ms pos = effectiveGravitySpec ms pos ∧
    totalAcceleration ms pos vel =
      add2D (geodesicAccelerationSpec ms pos vel) (effectiveGravitySpec ms pos) := by
  have hgeo : geodesicAcceleration ms pos vel = geodesicAccelerationSpec ms pos vel := by
    simp only [geodesicAcceleration, geodesicAccelerationSpec, length2D]
  have hgrav : computeEffectiveGravity ms pos = effectiveGravitySpec ms pos := by
    simp only [computeEffectiveGravity, effectiveGravitySpec, scale2D]
    ext <;> ring
  refine ⟨hgeo, hgrav, ?_⟩
  simp only [totalAcceleration, add2D, hgeo, hgrav]

/-- C7: height(x, y) is the sum over all masses of
-(strength / (distance + 0.5)); it is always defined, and at a mass's own
center the distance is 0 so that mass's contribution is -(strength / 0.5). -/
theorem height_sum_formula (ms : List Mass) (x y : ℝ) :
    gravitationalHeight ms x y =
      (ms.map fun m => -(m.strength / (massDist x y m + 0.5))).sum ∧
    (∀ m : Mass, massDist m.x m.y m = 0 ∧
      gravitationalHeight [m] m.x m.y = -(m.strength / 0.5)) := by
  constructor
  · rw [gravitationalHeight_eq_neg_sum, sum_map_neg]
  · intro m
    refine ⟨massDist_self m, ?_⟩
    rw [gravitationalHeight_eq_neg_sum]
    simp [massDist_self m]

/-- C9: for a single mass of positive strength, the height strictly decreases
as the distance to the mass decreases. -/
theorem height_monotone_well (m : Mass) (p q : Vec2)
    (hs : 0 < m.strength)
    (hd : massDist p.x p.y m < massDist q.x q.y m) :
    gravitationalHeight [m] p.x p.y < gravitationalHeight [m] q.x q.y := by
  rw [gravitationalHeight_eq_neg_sum, gravitationalHeight_eq_neg_sum]
  simp only [List.map_cons, List.map_nil, List.sum_cons, List.sum_nil, add_zero]
  have hp : (0 : ℝ) < massDist p.x p.y m + 0.5 := by
    have := massDist_nonneg p.x p.y m
    norm_num
    linarith
  apply neg_lt_neg
  apply div_lt_div_of_pos_left hs hp
  linarith

/-- C3: with at least one step of budget, a start position that passes the
goal test terminates immediately with reachedGoal true and outOfBounds false,
after recording exactly the start sample; the bounds test, although the
position is outside bounds, is never reached. -/
theorem goal_priority_over_bounds (ms : List Mass) (s v : Vec2) (o : TrajOptions)
    (hms : 0 < o.maxSteps) (hg : goalHit o s) (hb : outsideBounds o.bounds s) :
    (computeTrajectory ms s v o).reachedGoal = true ∧
    (computeTrajectory ms s v o).outOfBounds = false ∧
    (computeTrajectory ms s v o).points =
      [⟨s.x, s.y, gravitationalHeight ms s.x s.y⟩] ∧
    (computeTrajectory ms s v o).finalPos = s := by
  obtain ⟨n, hn⟩ : ∃ n, o.maxSteps = n + 1 := ⟨o.maxSteps - 1, by omega⟩
  simp [computeTrajectory, hn, trajLoop, hg]

/-- Witness for C3: empty mass list, start at (10, 0), goal at (10, 0) with
radius 0.3, bounds -5..5, one step of budget. -/
theorem goal_priority_over_bounds_witness :
    0 < optsGoalFar.maxSteps ∧ goalHit optsGoalFar ⟨10, 0⟩ ∧
    outsideBounds optsGoalFar.bounds ⟨10, 0⟩ ∧
    (computeTrajectory [] ⟨10, 0⟩ ⟨0, 0⟩ optsGoalFar).reachedGoal = true ∧
    (computeTrajectory [] ⟨10, 0⟩ ⟨0, 0⟩ optsGoalFar).outOfBounds = false := by
  have hms : 0 < optsGoalFar.maxSteps := by norm_num [optsGoalFar]
  have hg : goalHit optsGoalFar ⟨10, 0⟩ := by
    simp only [goalHit, optsGoalFar, length2D]
    norm_num
  have hb : outsideBounds optsGoalFar.bounds ⟨10, 0⟩ := by
    simp only [outsideBounds, optsGoalFar, defaultBounds]
    norm_num
  have h := goal_priority_over_bounds [] ⟨10, 0⟩ ⟨0, 0⟩ optsGoalFar hms hg hb
  exact ⟨hms, hg, hb, h.1, h.2.1⟩

/-- Length bound for the loop: at most one recorded point per unit of fuel. -/
lemma trajLoop_length_le (ms : List Mass) (o : TrajOptions) :
    ∀ (fuel : ℕ) (pos vel : Vec2),
      (trajLoop ms o fuel pos vel).points.length ≤ fuel := by
  intro fuel
  induction fuel with
  | zero => intro pos vel; simp [trajLoop]
  | succ n ih =>
      intro pos vel
      simp only [trajLoop]
      by_cases hg : goalHit o pos
      · simp [hg]
      · by_cases hb : outsideBounds o.bounds pos
        · simp [hg, hb]
        · by_cases hc : nearMass ms (integrateRK4 ms pos vel o.dt).1
          · simp [hg, hb, hc]
          · simp only [hg, hb, hc, if_false, List.length_cons]
            have := ih (integrateRK4 ms pos vel o.dt).1 (integrateRK4 ms pos vel o.dt).2
            omega

/-- C5: for positive maxSteps the run terminates with a finite point list of
length at most maxSteps + 1 (the source in fact records at most maxSteps
points). -/
theorem trajectory_length_bound (ms : List Mass) (s v : Vec2) (o : TrajOptions)
    (hms : 0 < o.maxSteps) :
    (computeTrajectory ms s v o).points.length ≤ o.maxSteps + 1 := by
  have := trajLoop_length_le ms o o.maxSteps s v
  simpa [computeTrajectory] using le_trans this (Nat.le_succ _)

/-- Witness for C5: one step of budget, empty mass list. -/
theorem trajectory_length_bound_witness :
    0 < optsOne.maxSteps ∧
    (computeTrajectory [] ⟨0, 0⟩ ⟨0, 0⟩ optsOne).points.length ≤
      optsOne.maxSteps + 1 := by
  have hms : 0 < optsOne.maxSteps := by norm_num [optsOne]
  exact ⟨hms, trajectory_length_bound [] ⟨0, 0⟩ ⟨0, 0⟩ optsOne hms⟩

/-- C6: computeTrajectory is a pure function of the mass configuration, the
start state and the options: two results obtained from identical inputs agree
on the point sequence, both flags, and the final position. -/
theorem trajectory_deterministic (ms : List Mass) (s v : Vec2) (o : TrajOptions)
    (r1 r2 : TrajResult)
    (h1 : r1 = computeTrajectory ms s v o)
    (h2 : r2 = computeTrajectory ms s v o) :
    r1.points = r2.points ∧ r1.reachedGoal = r2.reachedGoal ∧
    r1.outOfBounds = r2.outOfBounds ∧ r1.finalPos = r2.finalPos := by
  subst h1
  subst h2
  exact ⟨rfl, rfl, rfl, rfl⟩

/-- Witness for C6 on a concrete run. -/
theorem trajectory_deterministic_witness :
    (computeTrajectory [] ⟨0, 0⟩ ⟨0, 0⟩ optsOne).points =
      (computeTrajectory [] ⟨0, 0⟩ ⟨0, 0⟩ optsOne).points ∧
    (computeTrajectory [] ⟨0, 0⟩ ⟨0, 0⟩ optsOne).reachedGoal =
      (computeTrajectory [] ⟨0, 0⟩ ⟨0, 0⟩ optsOne).reachedGoal ∧
    (computeTrajectory [] ⟨0, 0⟩ ⟨0, 0⟩ optsOne).outOfBounds =
      (computeTrajectory [] ⟨0, 0⟩ ⟨0, 0⟩ optsOne).outOfBounds ∧
    (computeTrajectory [] ⟨0, 0⟩ ⟨0, 0⟩ optsOne).finalPos =
      (computeTrajectory [] ⟨0, 0⟩ ⟨0, 0⟩ optsOne).finalPos :=
  trajectory_deterministic [] ⟨0, 0⟩ ⟨0, 0⟩ optsOne _ _ rfl rfl

/-- With no configured mass the height field vanishes identically. -/
lemma gravitationalHeight_nil : ∀ x y : ℝ, gravitationalHeight [] x y = 0 := by
  intro x y
  simp [gravitationalHeight]

/-- With the single strength-zero mass the height field vanishes identically. -/
lemma gravitationalHeight_msZero : ∀ x y : ℝ, gravitationalHeight msZero x y = 0 := by
  intro x y
  simp [gravitationalHeight, msZero]

/-- On a vanishing height field the gradient is zero. -/
lemma computeGradient_flat {ms : List Mass}
    (hflat : ∀ x y : ℝ, gravitationalHeight ms x y = 0) (x y eps : ℝ) :
    computeGradient ms x y eps = ⟨0, 0⟩ := by
  simp [computeGradient, hflat]

/-- On a vanishing height field the effective gravity is zero. -/
lemma computeEffectiveGravity_flat {ms : List Mass}
    (hflat : ∀ x y : ℝ, gravitationalHeight ms x y = 0) (pos : Vec2) :
    computeEffectiveGravity ms pos = ⟨0, 0⟩ := by
  simp [computeEffectiveGravity, computeGradient_flat hflat]

/-- At zero velocity the geodesic acceleration is zero by the speed clamp. -/
lemma geodesicAcceleration_zero_vel (ms : List Mass) (pos : Vec2) :
    geodesicAcceleration ms pos ⟨0, 0⟩ = ⟨0, 0⟩ := by
  simp only [geodesicAcceleration]
  norm_num

/-- On a vanishing height field the total acceleration at rest is zero. -/
lemma totalAcceleration_flat {ms : List Mass}
    (hflat : ∀ x y : ℝ, gravitationalHeight ms x y = 0) (pos : Vec2) :
    totalAcceleration ms pos ⟨0, 0⟩ = ⟨0, 0⟩ := by
  simp [totalAcceleration, geodesicAcceleration_zero_vel,
    computeEffectiveGravity_flat hflat]

/-- On a vanishing height field a particle at rest stays exactly in place
through one RK4 step. -/
lemma integrateRK4_rest {ms : List Mass}
    (hflat : ∀ x y : ℝ, gravitationalHeight ms x y = 0) (pos : Vec2) (dt : ℝ) :
    integrateRK4 ms pos ⟨0, 0⟩ dt = (pos, ⟨0, 0⟩) := by
  have htot : ∀ p : Vec2, totalAcceleration ms p ⟨0, 0⟩ = ⟨0, 0⟩ :=
    fun p => totalAcceleration_flat hflat p
  simp [integrateRK4, scale2D, add2D, htot]

/-- Evaluation of the capture run: the strength-zero mass at the origin leaves
the particle at rest, and after the first RK4 step the proximity test fires. -/
lemma run_msZero_eval :
    computeTrajectory msZero ⟨0, 0⟩ ⟨0, 0⟩ optsFive =
      ⟨[⟨0, 0, 0⟩], false, false, ⟨0, 0⟩⟩ := by
  have hrk : integrateRK4 msZero ⟨0, 0⟩ ⟨0, 0⟩ optsFive.dt = (⟨0, 0⟩, ⟨0, 0⟩) :=
    integrateRK4_rest gravitationalHeight_msZero ⟨0, 0⟩ _
  have hc : nearMass msZero (⟨0, 0⟩ : Vec2) := by
    refine ⟨⟨0, 0, 0⟩, by simp [msZero], ?_⟩
    simp only [length2D]
    norm_num
  simp [computeTrajectory, optsFive, trajLoop, hc, gravitationalHeight_msZero,
    show integrateRK4 msZero ⟨0, 0⟩ ⟨0, 0⟩ (0.01 : ℝ) = (⟨0, 0⟩, ⟨0, 0⟩) from hrk]
  norm_num [goalHit, outsideBounds, defaultBounds]

/-- Outcome of the capture run. -/
lemma run_msZero_outcome :
    runOutcome msZero ⟨0, 0⟩ ⟨0, 0⟩ optsFive = Outcome.captured := by
  have hrk : integrateRK4 msZero ⟨0, 0⟩ ⟨0, 0⟩ optsFive.dt = (⟨0, 0⟩, ⟨0, 0⟩) :=
    integrateRK4_rest gravitationalHeight_msZero ⟨0, 0⟩ _
  have hc : nearMass msZero (⟨0, 0⟩ : Vec2) := by
    refine ⟨⟨0, 0, 0⟩, by simp [msZero], ?_⟩
    simp only [length2D]
    norm_num
  simp [runOutcome, optsFive, outcomeLoop, hc,
    show integrateRK4 msZero ⟨0, 0⟩ ⟨0, 0⟩ (0.01 : ℝ) = (⟨0, 0⟩, ⟨0, 0⟩) from hrk]
  norm_num [goalHit, outsideBounds, defaultBounds]

/-- Evaluation of the exhaustion run: no masses, particle at rest, one step of
budget, never captured, never out of bounds, no goal. -/
lemma run_nil_eval :
    computeTrajectory [] ⟨0, 0⟩ ⟨0, 0⟩ optsOne =
      ⟨[⟨0, 0, 0⟩], false, false, ⟨0, 0⟩⟩ := by
  have hrk : integrateRK4 [] ⟨0, 0⟩ ⟨0, 0⟩ optsOne.dt = (⟨0, 0⟩, ⟨0, 0⟩) :=
    integrateRK4_rest gravitationalHeight_nil ⟨0, 0⟩ _
  have hc : ¬ nearMass [] (⟨0, 0⟩ : Vec2) := by simp [nearMass]
  simp [computeTrajectory, optsOne, trajLoop, hc, gravitationalHeight_nil,
    show integrateRK4 [] ⟨0, 0⟩ ⟨0, 0⟩ (0.01 : ℝ) = (⟨0, 0⟩, ⟨0, 0⟩) from hrk]
  norm_num [goalHit, outsideBounds, defaultBounds]

/-- Outcome of the exhaustion run. -/
lemma run_nil_outcome :
    runOutcome [] ⟨0, 0⟩ ⟨0, 0⟩ optsOne = Outcome.exhausted := by
  have hrk : integrateRK4 [] ⟨0, 0⟩ ⟨0, 0⟩ optsOne.dt = (⟨0, 0⟩, ⟨0, 0⟩) :=
    integrateRK4_rest gravitationalHeight_nil ⟨0, 0⟩ _
  have hc : ¬ nearMass [] (⟨0, 0⟩ : Vec2) := by simp [nearMass]
  simp [runOutcome, optsOne, outcomeLoop, hc,
    show integrateRK4 [] ⟨0, 0⟩ ⟨0, 0⟩ (0.01 : ℝ) = (⟨0, 0⟩, ⟨0, 0⟩) from hrk]
  norm_num [goalHit, outsideBounds, defaultBounds]

/-- The reachedGoal and outOfBounds flags of the loop correspond exactly to
the success and out-of-bounds outcomes. -/
lemma loop_flags (ms : List Mass) (o : TrajOptions) :
    ∀ (fuel : ℕ) (pos vel : Vec2),
      ((trajLoop ms o fuel pos vel).reachedGoal = true ↔
        outcomeLoop ms o fuel pos vel = Outcome.success) ∧
      ((trajLoop ms o fuel pos vel).outOfBounds = true ↔
        outcomeLoop ms o fuel pos vel = Outcome.outOfBounds) := by
  intro fuel
  induction fuel with
  | zero =>
      intro pos vel
      simp [trajLoop, outcomeLoop]
  | succ n ih =>
      intro pos vel
      by_cases hg : goalHit o pos
      · simp [trajLoop, outcomeLoop, hg]
      · by_cases hb : outsideBounds o.bounds pos
        · simp [trajLoop, outcomeLoop, hg, hb]
        · by_cases hc : nearMass ms (integrateRK4 ms pos vel o.dt).1
          · simp [trajLoop, outcomeLoop, hg, hb, hc]
          · simp only [trajLoop, outcomeLoop, hg, hb, hc, if_false]
            exact ih (integrateRK4 ms pos vel o.dt).1 (integrateRK4 ms pos vel o.dt).2

/-- C4 counterexample: a run terminated by the 0.3-proximity capture rule and
a run terminated by exhausting maxSteps return exactly the same result value,
so the returned value alone cannot report capture as a distinct outcome. -/
theorem captured_indistinguishable_counterexample :
    runOutcome msZero ⟨0, 0⟩ ⟨0, 0⟩ optsFive = Outcome.captured ∧
    runOutcome [] ⟨0, 0⟩ ⟨0, 0⟩ optsOne = Outcome.exhausted ∧
    Outcome.captured ≠ Outcome.exhausted ∧
    computeTrajectory msZero ⟨0, 0⟩ ⟨0, 0⟩ optsFive =
      computeTrajectory [] ⟨0, 0⟩ ⟨0, 0⟩ optsOne := by
  refine ⟨run_msZero_outcome, run_nil_outcome, by decide, ?_⟩
  rw [run_msZero_eval, run_nil_eval]

/-- C4 amended: the two flags of the returned record identify the Success and
OutOfBounds outcomes, but a capture terminates with both flags false, exactly
like exhausting maxSteps, so capture is not reported as a distinct outcome. -/
theorem captured_terminates_without_flag (ms : List Mass) (s v : Vec2)
    (o : TrajOptions) :
    (runOutcome ms s v o = Outcome.success ↔
      (computeTrajectory ms s v o).reachedGoal = true) ∧
    (runOutcome ms s v o = Outcome.outOfBounds ↔
      (computeTrajectory ms s v o).outOfBounds = true) ∧
    (runOutcome ms s v o = Outcome.captured →
      (computeTrajectory ms s v o).reachedGoal = false ∧
      (computeTrajectory ms s v o).outOfBounds = false) ∧
    (runOutcome ms s v o = Outcome.exhausted →
      (computeTrajectory ms s v o).reachedGoal = false ∧
      (computeTrajectory ms s v o).outOfBounds = false) := by
  simp only [computeTrajectory, runOutcome]
  have h := loop_flags ms o o.maxSteps s v
  refine ⟨h.1.symm, h.2.symm, ?_, ?_⟩
  · intro hcap
    constructor
    · have hne : ¬ (trajLoop ms o o.maxSteps s v).reachedGoal = true := by
        intro htrue
        have hs := h.1.mp htrue
        rw [hcap] at hs
        exact Outcome.noConfusion hs
      simpa using hne
    · have hne : ¬ (trajLoop ms o o.maxSteps s v).outOfBounds = true := by
        intro htrue
        have hs := h.2.mp htrue
        rw [hcap] at hs
        exact Outcome.noConfusion hs
      simpa using hne
  · intro hex
    constructor
    · have hne : ¬ (trajLoop ms o o.maxSteps s v).reachedGoal = true := by
        intro htrue
        have hs := h.1.mp htrue
        rw [hex] at hs
        exact Outcome.noConfusion hs
      simpa using hne
    · have hne : ¬ (trajLoop ms o o.maxSteps s v).outOfBounds = true := by
        intro htrue
        have hs := h.2.mp htrue
        rw [hex] at hs
        exact Outcome.noConfusion hs
      simpa using hne

/-- Witness for the amended C4 on the concrete capture run. -/
theorem captured_terminates_without_flag_witness :
    runOutcome msZero ⟨0, 0⟩ ⟨0, 0⟩ optsFive = Outcome.captured ∧
    (computeTrajectory msZero ⟨0, 0⟩ ⟨0, 0⟩ optsFive).reachedGoal = false ∧
    (computeTrajectory msZero ⟨0, 0⟩ ⟨0, 0⟩ optsFive).outOfBounds = false := by
  have h := (captured_terminates_without_flag msZero ⟨0, 0⟩ ⟨0, 0⟩ optsFive).2.2.1
    run_msZero_outcome
  exact ⟨run_msZero_outcome, h.1, h.2⟩

/-- Prepending to a list with a known last element keeps that last element. -/
lemma getLast?_cons_of_some {α : Type} (a : α) {l : List α} {b : α}
    (h : l.getLast? = some b) : (a :: l).getLast? = some b := by
  cases l with
  | nil => simp at h
  | cons c t => rw [List.getLast?_cons_cons]; exact h

/-- Relation between the final position and the recorded points, by outcome:
for Success and OutOfBounds the final position is the last recorded point,
and for Captured (or Exhausted with positive fuel) it is one RK4 step beyond
the last recorded point. -/
lemma loop_finalPos (ms : List Mass) (o : TrajOptions) :
    ∀ (fuel : ℕ) (pos vel : Vec2),
      ((outcomeLoop ms o fuel pos vel = Outcome.success ∨
        outcomeLoop ms o fuel pos vel = Outcome.outOfBounds) →
        ∃ pt, (trajLoop ms o fuel pos vel).points.getLast? = some pt ∧
          (trajLoop ms o fuel pos vel).finalPos = ⟨pt.x, pt.y⟩) ∧
      ((outcomeLoop ms o fuel pos vel = Outcome.captured ∨
        (outcomeLoop ms o fuel pos vel = Outcome.exhausted ∧ 0 < fuel)) →
        ∃ pt v2, (trajLoop ms o fuel pos vel).points.getLast? = some pt ∧
          (trajLoop ms o fuel pos vel).finalPos =
            (integrateRK4 ms ⟨pt.x, pt.y⟩ v2 o.dt).1) := by
  intro fuel
  induction fuel with
  | zero =>
      intro pos vel
      constructor
      · rintro (h | h) <;> simp [outcomeLoop] at h
      · rintro (h | ⟨h, hpos⟩)
        · simp [outcomeLoop] at h
        · omega
  | succ n ih =>
      intro pos vel
      by_cases hg : goalHit o pos
      · constructor
        · intro _
          exact ⟨⟨pos.x, pos.y, gravitationalHeight ms pos.x pos.y⟩,
            by simp [trajLoop, hg], by simp [trajLoop, hg]⟩
        · rintro (h | ⟨h, _⟩) <;> simp [outcomeLoop, hg] at h
      · by_cases hb : outsideBounds o.bounds pos
        · constructor
          · intro _
            exact ⟨⟨pos.x, pos.y, gravitationalHeight ms pos.x pos.y⟩,
              by simp [trajLoop, hg, hb], by simp [trajLoop, hg, hb]⟩
          · rintro (h | ⟨h, _⟩) <;> simp [outcomeLoop, hg, hb] at h
        · by_cases hc : nearMass ms (integrateRK4 ms pos vel o.dt).1
          · constructor
            · rintro (h | h) <;> simp [outcomeLoop, hg, hb, hc] at h
            · intro _
              exact ⟨⟨pos.x, pos.y, gravitationalHeight ms pos.x pos.y⟩, vel,
                by simp [trajLoop, hg, hb, hc], by simp [trajLoop, hg, hb, hc]⟩
          · by_cases hn : n = 0
            · subst hn
              constructor
              · rintro (h | h) <;> simp [outcomeLoop, hg, hb, hc] at h
              · intro _
                exact ⟨⟨pos.x, pos.y, gravitationalHeight ms pos.x pos.y⟩, vel,
                  by simp [trajLoop, hg, hb, hc], by simp [trajLoop, hg, hb, hc]⟩
            · have hst := ih (integrateRK4 ms pos vel o.dt).1
                (integrateRK4 ms pos vel o.dt).2
              have hout : outcomeLoop ms o (n + 1) pos vel =
                  outcomeLoop ms o n (integrateRK4 ms pos vel o.dt).1
                    (integrateRK4 ms pos vel o.dt).2 := by
                simp [outcomeLoop, hg, hb, hc]
              have htraj : (trajLoop ms o (n + 1) pos vel).points =
                  ⟨pos.x, pos.y, gravitationalHeight ms pos.x pos.y⟩ ::
                    (trajLoop ms o n (integrateRK4 ms pos vel o.dt).1
                      (integrateRK4 ms pos vel o.dt).2).points := by
                simp [trajLoop, hg, hb, hc]
              have hfin : (trajLoop ms o (n + 1) pos vel).finalPos =
                  (trajLoop ms o n (integrateRK4 ms pos vel o.dt).1
                    (integrateRK4 ms pos vel o.dt).2).finalPos := by
                simp [trajLoop, hg, hb, hc]
              constructor
              · intro h
                rw [hout] at h
                obtain ⟨pt, hlast, hfp⟩ := hst.1 h
                exact ⟨pt, by rw [htraj]; exact getLast?_cons_of_some _ hlast,
                  by rw [hfin]; exact hfp⟩
              · intro h
                rw [hout] at h
                have h' : outcomeLoop ms o n (integrateRK4 ms pos vel o.dt).1
                    (integrateRK4 ms pos vel o.dt).2 = Outcome.captured ∨
                    (outcomeLoop ms o n (integrateRK4 ms pos vel o.dt).1
                      (integrateRK4 ms pos vel o.dt).2 = Outcome.exhausted ∧
                      0 < n) := by
                  rcases h with h | ⟨h, _⟩
                  · exact Or.inl h
                  · exact Or.inr ⟨h, by omega⟩
                obtain ⟨pt, v2, hlast, hfp⟩ := hst.2 h'
                exact ⟨pt, v2, by rw [htraj]; exact getLast?_cons_of_some _ hlast,
                  by rw [hfin]; exact hfp⟩

/-- Outcome of a one-step run whose start already satisfies the goal test. -/
lemma run_goalZero_outcome :
    runOutcome [] ⟨0, 0⟩ ⟨0, 0⟩ optsGoalZero = Outcome.success := by
  have hg : goalHit optsGoalZero ⟨0, 0⟩ := by
    simp only [goalHit, optsGoalZero, length2D]
    norm_num
  show outcomeLoop [] optsGoalZero 1 ⟨0, 0⟩ ⟨0, 0⟩ = Outcome.success
  simp [outcomeLoop, hg]

/-- C10 counterexample: a run that exhausts maxSteps in which the final
position nevertheless appears in the recorded points sequence (the particle
never moves, so the post-step position coincides with the recorded start). -/
theorem finalPos_reappears_counterexample :
    runOutcome [] ⟨0, 0⟩ ⟨0, 0⟩ optsOne = Outcome.exhausted ∧
    (computeTrajectory [] ⟨0, 0⟩ ⟨0, 0⟩ optsOne).points = [⟨0, 0, 0⟩] ∧
    (computeTrajectory [] ⟨0, 0⟩ ⟨0, 0⟩ optsOne).finalPos = ⟨0, 0⟩ ∧
    ∃ pt ∈ (computeTrajectory [] ⟨0, 0⟩ ⟨0, 0⟩ optsOne).points,
      pt.x = (computeTrajectory [] ⟨0, 0⟩ ⟨0, 0⟩ optsOne).finalPos.x ∧
      pt.y = (computeTrajectory [] ⟨0, 0⟩ ⟨0, 0⟩ optsOne).finalPos.y := by
  refine ⟨run_nil_outcome, ?_, ?_, ?_⟩
  · rw [run_nil_eval]
  · rw [run_nil_eval]
  · rw [run_nil_eval]
    exact ⟨⟨0, 0, 0⟩, by simp, by simp, by simp⟩

/-- C10 amended: when the run ends with Success or OutOfBounds the final
position equals the planar coordinates of the last recorded point, and when
it ends with Captured, or with Exhausted after at least one iteration, the
final position is one RK4 step beyond the last recorded point (taken with the
velocity current at that iteration); it is not recorded as a further point,
though its value can coincide with recorded points. -/
theorem finalPos_last_point_relation (ms : List Mass) (s v : Vec2)
    (o : TrajOptions) :
    ((runOutcome ms s v o = Outcome.success ∨
      runOutcome ms s v o = Outcome.outOfBounds) →
      ∃ pt, (computeTrajectory ms s v o).points.getLast? = some pt ∧
        (computeTrajectory ms s v o).finalPos = ⟨pt.x, pt.y⟩) ∧
    ((runOutcome ms s v o = Outcome.captured ∨
      (runOutcome ms s v o = Outcome.exhausted ∧ 0 < o.maxSteps)) →
      ∃ pt v2, (computeTrajectory ms s v o).points.getLast? = some pt ∧
        (computeTrajectory ms s v o).finalPos =
          (integrateRK4 ms ⟨pt.x, pt.y⟩ v2 o.dt).1) := by
  simp only [computeTrajectory, runOutcome]
  exact loop_finalPos ms o o.maxSteps s v

/-- Witness for the amended C10 on a concrete successful run. -/
theorem finalPos_last_point_relation_witness :
    runOutcome [] ⟨0, 0⟩ ⟨0, 0⟩ optsGoalZero = Outcome.success ∧
    (∃ pt, (computeTrajectory [] ⟨0, 0⟩ ⟨0, 0⟩ optsGoalZero).points.getLast? =
        some pt ∧
      (computeTrajectory [] ⟨0, 0⟩ ⟨0, 0⟩ optsGoalZero).finalPos =
        ⟨pt.x, pt.y⟩) :=
  ⟨run_goalZero_outcome,
    (finalPos_last_point_relation [] ⟨0, 0⟩ ⟨0, 0⟩ optsGoalZero).1
      (Or.inl run_goalZero_outcome)⟩

/-- Witness for C9 at a unit mass at the origin, with query points at
distance 0 and distance 1. -/
theorem height_monotone_well_witness :
    (0 : ℝ) < (1 : ℝ) ∧
    massDist 0 0 ⟨0, 0, 1⟩ < massDist 1 0 ⟨0, 0, 1⟩ ∧
    gravitationalHeight [⟨0, 0, 1⟩] 0 0 < gravitationalHeight [⟨0, 0, 1⟩] 1 0 := by
  have hd : massDist 0 0 (⟨0, 0, 1⟩ : Mass) < massDist 1 0 (⟨0, 0, 1⟩ : Mass) := by
    show Real.sqrt ((0 - 0) * (0 - 0) + (0 - 0) * (0 - 0)) <
      Real.sqrt ((1 - 0) * (1 - 0) + (0 - 0) * (0 - 0))
    rw [show ((0 : ℝ) - 0) * (0 - 0) + (0 - 0) * (0 - 0) = 0 by norm_num,
        show ((1 : ℝ) - 0) * (1 - 0) + (0 - 0) * (0 - 0) = 1 by norm_num,
        Real.sqrt_zero, Real.sqrt_one]
    norm_num
  exact ⟨by norm_num, hd,
    height_monotone_well ⟨0, 0, 1⟩ ⟨0, 0⟩ ⟨1, 0⟩ (by norm_num) hd⟩

end

end TwoDWorld
